import Mathlib

/-!
Shallow embedding of the `access2` security controller (`app/app.py`,
`app/telegram.py`).

The Python program is a five-state security state machine driven by MQTT
messages and `threading.Timer` callbacks.  All handlers serialize their
read-decide-mutate sections through a single re-entrant lock, so the
sequential semantics below models each handler as a pure function from the
machine state to a new state plus an ordered list of emitted side effects
(LED commands, status publishes, Telegram sends, logging calls).

JSON payloads are modelled by an inductive `Json` type, and the dynamic
Python operations used by the handlers (`key in data`, `data[key]`,
`uid.lower()`, truthiness) are modelled by `Except`-returning functions that
mirror Python's runtime errors (`TypeError`, `KeyError`, `AttributeError`),
since the handler bodies run outside the `try` block of `on_message`.

Timer handles (`self.trigger_timer` / `self.button_timer` /
`self.alarm_timer`) are modelled as `Option TimerStatus`: `none` is Python
`None`; `some st` is a stored `threading.Timer` object whose scheduling
status is `st`.  Firing a timer is an external scheduler event: it requires
the stored handle to be pending, marks it fired, and then runs the callback
(the handlers themselves never null a fired handle, exactly like the code).
-/

/-- The decoded JSON value of an MQTT payload. -/
inductive Json where
  | null : Json
  | bool (b : Bool) : Json
  | num (n : Int) : Json
  | str (s : String) : Json
  | arr (xs : List Json) : Json
  | obj (kvs : List (String × Json)) : Json

/-- Python runtime errors that the handler bodies can raise. -/
inductive PyError where
  | typeError : PyError
  | keyError : PyError
  | attributeError : PyError
deriving DecidableEq, Repr

/-- Substring test, used to model Python `needle in haystack` on strings. -/
def strContains (haystack needle : String) : Bool :=
  if needle = "" then true else (haystack.splitOn needle).length ≥ 2

/-- Python `key in data`: key lookup on dicts, substring test on strings,
membership on lists; `TypeError` on numbers, booleans and `None`. -/
def pyContains (key : String) : Json → Except PyError Bool
  | .obj kvs => .ok (kvs.any (fun kv => kv.1 == key))
  | .str s => .ok (strContains s key)
  | .arr xs => .ok (xs.any (fun x => match x with | .str s => s == key | _ => false))
  | _ => .error .typeError

/-- Python `data[key]`: lookup on dicts (`KeyError` when absent),
`TypeError` when `data` is not a dict (string/list indices must be
integers). -/
def pyIndex (key : String) : Json → Except PyError Json
  | .obj kvs =>
      match kvs.find? (fun kv => kv.1 == key) with
      | some kv => .ok kv.2
      | none => .error .keyError
  | _ => .error .typeError

/-- Python truthiness of a JSON value (used by `if not door_closed`). -/
def pyTruthy : Json → Bool
  | .null => false
  | .bool b => b
  | .num n => n ≠ 0
  | .str s => s ≠ ""
  | .arr xs => ¬xs.isEmpty
  | .obj kvs => ¬kvs.isEmpty

/-- Python `x.lower()`: defined on strings, `AttributeError` otherwise. -/
def pyLower : Json → Except PyError String
  | .str s => .ok s.toLower
  | _ => .error .attributeError

/-- The five values of `self.system_state`. -/
inductive SystemState where
  | disarmed : SystemState
  | armed : SystemState
  | button_pending : SystemState
  | trigger_pending : SystemState
  | alarm : SystemState
deriving DecidableEq, Repr

/-- Scheduling status of a stored `threading.Timer` object. -/
inductive TimerStatus where
  | pending : TimerStatus
  | fired : TimerStatus
  | cancelled : TimerStatus
deriving DecidableEq, Repr

/-- The mutable state of a `SecuritySystem` object guarded by
`state_lock`: the state string and the three timer-handle attributes. -/
structure Sys where
  system_state : SystemState
  trigger_timer : Option TimerStatus
  button_timer : Option TimerStatus
  alarm_timer : Option TimerStatus
deriving DecidableEq, Repr

/-- `SecuritySystem.__init__`: disarmed, all handles `None`. -/
def initSys : Sys :=
  { system_state := .disarmed, trigger_timer := none,
    button_timer := none, alarm_timer := none }

/-- The environment-derived module configuration used by the handlers. -/
structure Config where
  DOOR_TOPIC : String
  ACCESS_TOPIC : String
  ACCESS_BUTTON : String
  ACCESS_BUTTON_PAYLOAD : String
  ALLOWED_USERS : List String
  TELEGRAM_TOKEN : String
  TELEGRAM_CHATID : String
deriving DecidableEq, Repr

/-- `telegram.telegram_send_message`: the HTTP POST it issues, as data. -/
structure TelegramRequest where
  url : String
  chat_id : String
  text : String
deriving DecidableEq, Repr

def telegram_send_message (chat_id token text : String) : TelegramRequest :=
  { url := "https://api.telegram.org/bot" ++ token ++ "/sendMessage",
    chat_id := chat_id, text := text }

/-- One observable side effect of a handler, in program order.  `log` is
one call to a `logging.*` function; `led` is one `send_led_command`
publish; `publishStatus` is one `publish_system_state` publish carrying
the computed `state_msg`; `telegram` is one outbound Telegram request. -/
inductive Effect where
  | log : Effect
  | led (power1 power2 buzzer : String) : Effect
  | publishStatus (msg : Option String) : Effect
  | telegram (req : TelegramRequest) : Effect
deriving DecidableEq, Repr

/-- `SecuritySystem.set_state`: assign the new state (and log). -/
def set_state (s : Sys) (new_state : SystemState) : Sys × List Effect :=
  ({ s with system_state := new_state }, [.log])

/-- `SecuritySystem.send_led_command`: publish the LED command, then log. -/
def send_led_command (power1 power2 buzzer : String) : List Effect :=
  [.led power1 power2 buzzer, .log]

/-- The `state_msg` dictionary computed by `publish_system_state`:
`{"system": "armed"}` for armed/trigger_pending/alarm,
`{"system": "disarmed"}` for disarmed/button_pending. -/
def state_msg (s : SystemState) : Option String :=
  if s = .armed ∨ s = .trigger_pending ∨ s = .alarm then some "armed"
  else if s = .disarmed ∨ s = .button_pending then some "disarmed"
  else none

/-- `SecuritySystem.publish_system_state`: publish the status, then log. -/
def publish_system_state (s : Sys) : List Effect :=
  [.publishStatus (state_msg s.system_state), .log]

/-- `SecuritySystem.send_telegram_message`.  With the token or chat id
unconfigured (empty ⇒ falsy) it only logs a warning; otherwise it calls
`telegram_send_message` with the hard-coded alarm text (the `text`
argument is not forwarded) and logs the outcome. -/
def send_telegram_message (cfg : Config) (text : String) : List Effect :=
  if cfg.TELEGRAM_TOKEN = "" ∨ cfg.TELEGRAM_CHATID = "" then [.log]
  else
    [.telegram (telegram_send_message cfg.TELEGRAM_CHATID cfg.TELEGRAM_TOKEN
        "ALARM: the door has been opened with the alarm connected!!!"),
     .log]

/-- `SecuritySystem.cancel_trigger_timer`: if the handle is not `None`,
cancel it and set the attribute to `None`. -/
def cancel_trigger_timer (s : Sys) : Sys :=
  match s.trigger_timer with
  | some _ => { s with trigger_timer := none }
  | none => s

/-- `SecuritySystem.start_trigger_timer`: re-check `armed` under the lock,
move to `trigger_pending`, set the LED, store a fresh pending timer. -/
def start_trigger_timer (s : Sys) : Sys × List Effect :=
  if s.system_state ≠ .armed then (s, [])
  else
    let (s1, e1) := set_state s .trigger_pending
    let e2 := send_led_command "blink" "on" "1,1,1,1"
    ({ s1 with trigger_timer := some .pending }, e1 ++ e2)

/-- `SecuritySystem.start_button_timer`: move to `button_pending`, set the
LED, store a fresh pending button timer. -/
def start_button_timer (s : Sys) : Sys × List Effect :=
  let (s1, e1) := set_state s .button_pending
  let e2 := send_led_command "off" "blink" "1,1,1,1"
  ({ s1 with button_timer := some .pending }, e1 ++ e2)

/-- `SecuritySystem.end_button_timer` (button-timer callback): move to
`armed` unconditionally, set the LED, publish the status, log.  The fired
handle is not cleared. -/
def end_button_timer (s : Sys) : Sys × List Effect :=
  let (s1, e1) := set_state s .armed
  let e2 := send_led_command "off" "on" "1,1,1,1"
  let e3 := publish_system_state s1
  (s1, e1 ++ e2 ++ e3 ++ [.log])

/-- `SecuritySystem.trigger_alarm` (trigger-timer callback): under the
lock, return unless the state is still `trigger_pending`; otherwise move
to `alarm`, log, set the LED, send the Telegram notification, and store a
fresh pending alarm timer. -/
def trigger_alarm (cfg : Config) (s : Sys) : Sys × List Effect :=
  if s.system_state ≠ .trigger_pending then (s, [])
  else
    let (s1, e1) := set_state s .alarm
    let e2 := send_led_command "blink" "blink" "1,1,1,1"
    let e3 := send_telegram_message cfg "Alarm: door opened without authorization."
    ({ s1 with alarm_timer := some .pending }, e1 ++ [.log] ++ e2 ++ e3)

/-- `SecuritySystem.reset_alarm` (alarm-timer callback): move to `armed`,
set the LED, publish the status, log.  The fired handle is not cleared. -/
def reset_alarm (s : Sys) : Sys × List Effect :=
  let (s1, e1) := set_state s .armed
  let e2 := send_led_command "off" "on" "1,1,1,1"
  let e3 := publish_system_state s1
  (s1, e1 ++ e2 ++ e3 ++ [.log])

/-- `any(user["uid"].lower() == uid.lower() for user in ALLOWED_USERS)`:
`uid.lower()` is evaluated lazily, once per compared user, so a non-string
UID raises only when the allow-list is non-empty. -/
def checkAllowed (users : List String) (uidJ : Json) : Except PyError Bool :=
  match users with
  | [] => .ok false
  | u :: rest => do
      let uidL ← pyLower uidJ
      if u.toLower == uidL then pure true else checkAllowed rest uidJ

/-- `SecuritySystem.process_door_message`.  Drops payloads without a
`contact` key; in `armed`, a falsy `contact` starts the trigger timer and
a truthy one only logs; in every other state the event is logged and
ignored. -/
def process_door_message (data : Json) (s : Sys) :
    Except PyError (Sys × List Effect) := do
  let hasContact ← pyContains "contact" data
  if !hasContact then
    return (s, [])
  else
    let door_closed ← pyIndex "contact" data
    if s.system_state = .armed then
      if !(pyTruthy door_closed) then
        let (s1, e1) := start_trigger_timer s
        return (s1, [.log] ++ e1)
      else
        return (s, [.log])
    else
      return (s, [.log])

/-- `SecuritySystem.process_access_message`.  First the button field is
checked (pressed ⇒ start the button timer when disarmed); otherwise a
`{"PN532": {"UID": ...}}` payload is looked up in the allow-list: a valid
UID always disarms (cancelling the trigger timer from `trigger_pending`
and the alarm timer from `alarm`), an invalid UID is denied and logged. -/
def process_access_message (cfg : Config) (data : Json) (s : Sys) :
    Except PyError (Sys × List Effect) := do
  let hasButton ← pyContains cfg.ACCESS_BUTTON_PAYLOAD data
  let buttonOn ←
    if hasButton then do
      let v ← pyIndex cfg.ACCESS_BUTTON_PAYLOAD data
      pure (match v with | Json.str s => s == "ON" | _ => false)
    else
      pure false
  if buttonOn then
    if s.system_state = .disarmed then
      let (s1, e1) := start_button_timer s
      return (s1, [.log] ++ e1)
    else
      return (s, [])
  else
    let hasPN ← pyContains "PN532" data
    let hasUID ←
      if hasPN then do
        let pn ← pyIndex "PN532" data
        pyContains "UID" pn
      else
        pure false
    if hasUID then
      let pn ← pyIndex "PN532" data
      let uidJ ← pyIndex "UID" pn
      let allowed ← checkAllowed cfg.ALLOWED_USERS uidJ
      if allowed then
        if s.system_state = .trigger_pending then
          let s1 := cancel_trigger_timer s
          let (s2, e2) := set_state s1 .disarmed
          let e3 := send_led_command "on" "off" "1,1,1,1"
          let e4 := publish_system_state s2
          return (s2, [.log, .log] ++ e2 ++ e3 ++ e4 ++ [.log])
        else if s.system_state = .alarm then
          let s1 :=
            match s.alarm_timer with
            | some _ => { s with alarm_timer := none }
            | none => s
          let (s2, e2) := set_state s1 .disarmed
          let e3 := send_led_command "on" "off" "1,1,1,1"
          let e4 := publish_system_state s2
          return (s2, [.log, .log] ++ e2 ++ e3 ++ e4 ++ [.log])
        else
          let (s2, e2) := set_state s .disarmed
          let e3 := send_led_command "on" "off" "1,1,1,1"
          let e4 := publish_system_state s2
          return (s2, [.log, .log, .log] ++ e2 ++ e3 ++ e4)
      else
        return (s, [.log, .log])
    else
      return (s, [])

/-- `SecuritySystem.on_message`.  Decode failures are caught, logged and
dropped; a decoded message is logged and routed: door topic to
`process_door_message`, then `topic == ACCESS_TOPIC or ACCESS_BUTTON`
(note: the truthiness of the configured button-topic name, not an
equality test) to `process_access_message`, else an unknown-topic
warning. -/
def on_message (cfg : Config) (topic : String) (decoded : Option Json)
    (s : Sys) : Except PyError (Sys × List Effect) :=
  match decoded with
  | none => .ok (s, [.log])
  | some data =>
    if topic = cfg.DOOR_TOPIC then do
      let (s1, e1) ← process_door_message data s
      return (s1, [.log] ++ e1)
    else if topic = cfg.ACCESS_TOPIC ∨ cfg.ACCESS_BUTTON ≠ "" then do
      let (s1, e1) ← process_access_message cfg data s
      return (s1, [.log] ++ e1)
    else
      .ok (s, [.log, .log])

/-- A concrete configuration used for witnesses and counterexamples:
all five topics configured and distinct, one allowed UID, Telegram
configured. -/
def demoCfg : Config :=
  { DOOR_TOPIC := "zigbee2mqtt/door", ACCESS_TOPIC := "access/uid",
    ACCESS_BUTTON := "access/button", ACCESS_BUTTON_PAYLOAD := "state_l2",
    ALLOWED_USERS := ["04a5b2c3"], TELEGRAM_TOKEN := "tok",
    TELEGRAM_CHATID := "42" }

/-- A door-sensor payload `{"contact": c}`. -/
def doorMsg (c : Bool) : Json := .obj [("contact", .bool c)]

/-- An NFC payload `{"PN532": {"UID": uid}}`. -/
def nfcMsg (uid : String) : Json := .obj [("PN532", .obj [("UID", .str uid)])]

/-- A button payload `{field: "ON"}`. -/
def buttonMsg (field : String) : Json := .obj [(field, .str "ON")]

/-- Tests whether an effect is an outbound Telegram notification. -/
def isTelegramSend : Effect → Bool
  | .telegram _ => true
  | _ => false

/-- One inbound MQTT delivery as a state step: the new state when
`on_message` returns normally, `none` when the handler raises (a raise
leaves the state unchanged, so it adds no reachable state). -/
def stepMsg (cfg : Config) (topic : String) (decoded : Option Json)
    (s : Sys) : Option Sys :=
  match on_message cfg topic decoded s with
  | .ok (s1, _) => some s1
  | .error _ => none

/-- The scheduler runs the trigger timer: only a pending stored handle can
fire; firing marks it fired and runs `trigger_alarm`. -/
def fireTriggerStep (cfg : Config) (s : Sys) : Option Sys :=
  if s.trigger_timer = some TimerStatus.pending then
    some (trigger_alarm cfg { s with trigger_timer := some .fired }).1
  else none

/-- The scheduler runs the button timer (callback `end_button_timer`). -/
def fireButtonStep (s : Sys) : Option Sys :=
  if s.button_timer = some TimerStatus.pending then
    some (end_button_timer { s with button_timer := some .fired }).1
  else none

/-- The scheduler runs the alarm timer (callback `reset_alarm`). -/
def fireAlarmStep (s : Sys) : Option Sys :=
  if s.alarm_timer = some TimerStatus.pending then
    some (reset_alarm { s with alarm_timer := some .fired }).1
  else none

/-- States of the `SecuritySystem` object reachable from `__init__` by a
sequence of inbound messages and timer expirations. -/
inductive Reach (cfg : Config) : Sys → Prop where
  | init : Reach cfg initSys
  | msg {s s1 : Sys} (topic : String) (decoded : Option Json) :
      Reach cfg s → stepMsg cfg topic decoded s = some s1 → Reach cfg s1
  | fireTrigger {s s1 : Sys} :
      Reach cfg s → fireTriggerStep cfg s = some s1 → Reach cfg s1
  | fireButton {s s1 : Sys} :
      Reach cfg s → fireButtonStep s = some s1 → Reach cfg s1
  | fireAlarm {s s1 : Sys} :
      Reach cfg s → fireAlarmStep s = some s1 → Reach cfg s1

theorem cancel_trigger_timer_eq (s : Sys) :
    cancel_trigger_timer s = { s with trigger_timer := none } := by
  cases s with
  | mk st tt bt at_ => cases tt <;> rfl

theorem checkAllowed_str (users : List String) (uid : String) :
    checkAllowed users (Json.str uid) =
      Except.ok (users.any (fun u => u.toLower == uid.toLower)) := by
  induction users with
  | nil => rfl
  | cons u rest ih =>
      by_cases hd : u.toLower = uid.toLower <;>
        simp [checkAllowed, pyLower, Bind.bind, Except.bind, Pure.pure,
          Except.pure, hd, ih, List.any_cons]

/-- Characterization of `process_door_message` on a well-formed door
payload: an open contact in `armed` moves to `trigger_pending` and starts
the trigger timer; every other combination only logs. -/
theorem process_door_contact (s : Sys) (c : Bool) :
    process_door_message (doorMsg c) s =
      if c = false ∧ s.system_state = SystemState.armed then
        Except.ok ({ s with system_state := SystemState.trigger_pending,
                            trigger_timer := some TimerStatus.pending },
          [Effect.log, Effect.log, Effect.led "blink" "on" "1,1,1,1", Effect.log])
      else
        Except.ok (s, [Effect.log]) := by
  cases c <;> cases h : s.system_state <;>
    simp [process_door_message, doorMsg, pyContains, pyIndex, pyTruthy,
      start_trigger_timer, set_state, send_led_command, h, Bind.bind,
      Except.bind, Pure.pure, Except.pure]

/-- Characterization of `process_access_message` on an NFC payload
`{"PN532": {"UID": uid}}`: a UID found in the allow-list under
case-insensitive comparison always disarms — cancelling the trigger timer
from `trigger_pending` and the alarm timer from `alarm` — with the
disarmed LED command and a status publish; an unknown UID only logs the
read and the denial and changes nothing. -/
theorem process_access_nfc (cfg : Config) (uid : String) (s : Sys) :
    process_access_message cfg (nfcMsg uid) s =
      if cfg.ALLOWED_USERS.any (fun u => u.toLower == uid.toLower) then
        if s.system_state = SystemState.trigger_pending then
          Except.ok ({ s with system_state := SystemState.disarmed,
                              trigger_timer := none },
            [Effect.log, Effect.log, Effect.log,
             Effect.led "on" "off" "1,1,1,1", Effect.log,
             Effect.publishStatus (some "disarmed"), Effect.log, Effect.log])
        else if s.system_state = SystemState.alarm then
          Except.ok ({ s with system_state := SystemState.disarmed,
                              alarm_timer := none },
            [Effect.log, Effect.log, Effect.log,
             Effect.led "on" "off" "1,1,1,1", Effect.log,
             Effect.publishStatus (some "disarmed"), Effect.log, Effect.log])
        else
          Except.ok ({ s with system_state := SystemState.disarmed },
            [Effect.log, Effect.log, Effect.log, Effect.log,
             Effect.led "on" "off" "1,1,1,1", Effect.log,
             Effect.publishStatus (some "disarmed"), Effect.log])
      else
        Except.ok (s, [Effect.log, Effect.log]) := by
  obtain ⟨st, tt, bt, al⟩ := s
  cases hbp : ("PN532" == cfg.ACCESS_BUTTON_PAYLOAD) <;>
  cases ha : cfg.ALLOWED_USERS.any (fun u => u.toLower == uid.toLower) <;>
  cases st <;> cases tt <;> cases al <;>
    simp [process_access_message, nfcMsg, pyContains, pyIndex,
      checkAllowed_str, cancel_trigger_timer, set_state, send_led_command,
      publish_system_state, state_msg, Bind.bind, Except.bind, Pure.pure,
      Except.pure, hbp, ha]

/-- Characterization of `process_access_message` on a button payload
`{ACCESS_BUTTON_PAYLOAD: "ON"}`: in `disarmed` it starts the button
timer and moves to `button_pending`; in every other state it does
nothing at all. -/
theorem process_access_pressed (cfg : Config) (s : Sys) :
    process_access_message cfg (buttonMsg cfg.ACCESS_BUTTON_PAYLOAD) s =
      if s.system_state = SystemState.disarmed then
        Except.ok ({ s with system_state := SystemState.button_pending,
                            button_timer := some TimerStatus.pending },
          [Effect.log, Effect.log, Effect.led "off" "blink" "1,1,1,1",
           Effect.log])
      else
        Except.ok (s, []) := by
  obtain ⟨st, tt, bt, al⟩ := s
  cases st <;>
    simp [process_access_message, buttonMsg, pyContains, pyIndex,
      start_button_timer, set_state, send_led_command, Bind.bind,
      Except.bind, Pure.pure, Except.pure]

/-- C1: in any run where a valid credential read in `trigger_pending`
cancelled the trigger timer and set the state to `disarmed`, a subsequent
stale firing of the trigger-timer callback (`trigger_alarm`) re-reads the
current state under the lock, performs no state transition and emits no
side effect, so the state remains `disarmed`. -/
theorem C1_stale_trigger_fire_noop (cfg : Config) (uid : String) (s : Sys)
    (hs : s.system_state = SystemState.trigger_pending)
    (ha : cfg.ALLOWED_USERS.any (fun u => u.toLower == uid.toLower) = true) :
    ∃ s1 effs,
      process_access_message cfg (nfcMsg uid) s = Except.ok (s1, effs) ∧
      s1.system_state = SystemState.disarmed ∧ s1.trigger_timer = none ∧
      trigger_alarm cfg s1 = (s1, []) := by
  refine ⟨{ s with
            system_state := SystemState.disarmed,
            trigger_timer := none },
    [Effect.log, Effect.log, Effect.log, Effect.led "on" "off" "1,1,1,1",
     Effect.log, Effect.publishStatus (some "disarmed"), Effect.log,
     Effect.log], ?_, rfl, rfl, ?_⟩
  · rw [process_access_nfc, ha]
    simp [hs]
  · simp [trigger_alarm]

/-- Witness for C1 at a concrete cancelled run. -/
theorem C1_stale_trigger_fire_noop_witness :
    ∃ s1 effs,
      process_access_message demoCfg (nfcMsg "04a5b2c3")
        { system_state := SystemState.trigger_pending,
          trigger_timer := some TimerStatus.pending,
          button_timer := none, alarm_timer := none } = Except.ok (s1, effs) ∧
      s1.system_state = SystemState.disarmed ∧ s1.trigger_timer = none ∧
      trigger_alarm demoCfg s1 = (s1, []) :=
  C1_stale_trigger_fire_noop demoCfg "04a5b2c3"
    { system_state := SystemState.trigger_pending,
      trigger_timer := some TimerStatus.pending,
      button_timer := none, alarm_timer := none } rfl (by simp [demoCfg])

/-- C3: a door event transitions the state to `trigger_pending` (starting
the trigger timer) exactly when the contact is open and the state is
`armed`; for every other state, and for every door-close event, the state
— including any already-started trigger timer — is unchanged. -/
theorem C3_door_event (s : Sys) (c : Bool) :
    process_door_message (doorMsg c) s =
      if c = false ∧ s.system_state = SystemState.armed then
        Except.ok ({ s with system_state := SystemState.trigger_pending,
                            trigger_timer := some TimerStatus.pending },
          [Effect.log, Effect.log, Effect.led "blink" "on" "1,1,1,1",
           Effect.log])
      else
        Except.ok (s, [Effect.log]) :=
  process_door_contact s c

/-- C5: a credential read with a UID in the allow-list (compared
case-insensitively) disarms from every state, with the disarmed LED
command and a status publish, cancelling the trigger timer when the state
was `trigger_pending` and the alarm timer when it was `alarm`; an unknown
UID is denied and logged with no state change. -/
theorem C5_credential_read (cfg : Config) (uid : String) (s : Sys) :
    ∃ s1 effs,
      process_access_message cfg (nfcMsg uid) s = Except.ok (s1, effs) ∧
      if cfg.ALLOWED_USERS.any (fun u => u.toLower == uid.toLower) = true then
        s1.system_state = SystemState.disarmed ∧
        (s.system_state = SystemState.trigger_pending →
          s1.trigger_timer = none) ∧
        (s.system_state = SystemState.alarm → s1.alarm_timer = none) ∧
        Effect.led "on" "off" "1,1,1,1" ∈ effs ∧
        Effect.publishStatus (some "disarmed") ∈ effs
      else
        s1 = s ∧ effs = [Effect.log, Effect.log] := by
  rw [show process_access_message cfg (nfcMsg uid) s = _ from
    process_access_nfc cfg uid s]
  cases ha : cfg.ALLOWED_USERS.any (fun u => u.toLower == uid.toLower) <;>
    cases hst : s.system_state <;>
      simp [ha, hst, and_assoc, exists_eq_left, eq_comm (b := s)]

/-- C8: the published status is `{"system": "armed"}` exactly when the
internal state is `armed`, `trigger_pending` or `alarm`, and
`{"system": "disarmed"}` exactly when it is `disarmed` or
`button_pending`. -/
theorem C8_published_status (s : Sys) :
    publish_system_state s =
      [Effect.publishStatus (state_msg s.system_state), Effect.log] ∧
    (state_msg s.system_state = some "armed" ↔
      s.system_state = SystemState.armed ∨
      s.system_state = SystemState.trigger_pending ∨
      s.system_state = SystemState.alarm) ∧
    (state_msg s.system_state = some "disarmed" ↔
      s.system_state = SystemState.disarmed ∨
      s.system_state = SystemState.button_pending) := by
  refine ⟨rfl, ?_, ?_⟩ <;> cases hst : s.system_state <;> simp [state_msg, hst]

/-- C4: a full escalation cycle with no intervening credential read:
from `armed`, a door-open event moves to `trigger_pending` and starts the
trigger timer; when that timer fires, `trigger_alarm` moves to `alarm`,
emits exactly one Telegram notification and starts the alarm timer; when
the alarm timer fires, `reset_alarm` re-arms with the
{primary: Off, secondary: On} LED command and an "armed" status
publish. -/
theorem C4_escalation_cycle (cfg : Config) (s : Sys)
    (hs : s.system_state = SystemState.armed)
    (ht : cfg.TELEGRAM_TOKEN ≠ "") (hc : cfg.TELEGRAM_CHATID ≠ "") :
    ∃ s1 e1,
      process_door_message (doorMsg false) s = Except.ok (s1, e1) ∧
      s1.system_state = SystemState.trigger_pending ∧
      s1.trigger_timer = some TimerStatus.pending ∧
      (let r2 := trigger_alarm cfg { s1 with trigger_timer := some TimerStatus.fired }
       r2.1.system_state = SystemState.alarm ∧
       r2.1.alarm_timer = some TimerStatus.pending ∧
       r2.2.countP isTelegramSend = 1 ∧
       (let r3 := reset_alarm { r2.1 with alarm_timer := some TimerStatus.fired }
        r3.1.system_state = SystemState.armed ∧
        Effect.led "off" "on" "1,1,1,1" ∈ r3.2 ∧
        Effect.publishStatus (some "armed") ∈ r3.2)) := by
  rw [process_door_contact]
  simp only [hs, and_true, if_pos rfl, eq_self_iff_true]
  refine ⟨_, _, rfl, rfl, rfl, ?_⟩
  simp [trigger_alarm, reset_alarm, set_state, send_led_command,
    publish_system_state, send_telegram_message, state_msg, isTelegramSend,
    ht, hc, List.countP_cons]

/-- Witness for C4 at the concrete configuration and armed start state. -/
theorem C4_escalation_cycle_witness :
    ∃ s1 e1,
      process_door_message (doorMsg false)
        { system_state := SystemState.armed, trigger_timer := none,
          button_timer := none, alarm_timer := none } = Except.ok (s1, e1) ∧
      s1.system_state = SystemState.trigger_pending ∧
      s1.trigger_timer = some TimerStatus.pending ∧
      (let r2 := trigger_alarm demoCfg
          { s1 with trigger_timer := some TimerStatus.fired }
       r2.1.system_state = SystemState.alarm ∧
       r2.1.alarm_timer = some TimerStatus.pending ∧
       r2.2.countP isTelegramSend = 1 ∧
       (let r3 := reset_alarm { r2.1 with alarm_timer := some TimerStatus.fired }
        r3.1.system_state = SystemState.armed ∧
        Effect.led "off" "on" "1,1,1,1" ∈ r3.2 ∧
        Effect.publishStatus (some "armed") ∈ r3.2)) :=
  C4_escalation_cycle demoCfg
    { system_state := SystemState.armed, trigger_timer := none,
      button_timer := none, alarm_timer := none } rfl
    (by decide) (by decide)

/-- C6: a button press moves the state to `button_pending` exactly when
the current state is `disarmed` (it is ignored in every other state); the
button-timer callback `end_button_timer` moves to `armed` unconditionally
with the {primary: Off, secondary: On} LED command and a status publish;
and a door-open event during `button_pending` changes nothing, so no
intervening door-open affects the outcome. -/
theorem C6_button_cycle (cfg : Config) (s : Sys) :
    (process_access_message cfg (buttonMsg cfg.ACCESS_BUTTON_PAYLOAD) s =
      if s.system_state = SystemState.disarmed then
        Except.ok ({ s with
                     system_state := SystemState.button_pending,
                     button_timer := some TimerStatus.pending },
          [Effect.log, Effect.log, Effect.led "off" "blink" "1,1,1,1",
           Effect.log])
      else
        Except.ok (s, [])) ∧
    (end_button_timer s = ({ s with system_state := SystemState.armed },
      [Effect.log, Effect.led "off" "on" "1,1,1,1", Effect.log,
       Effect.publishStatus (some "armed"), Effect.log, Effect.log])) ∧
    (s.system_state = SystemState.button_pending →
      process_door_message (doorMsg false) s = Except.ok (s, [Effect.log])) := by
  refine ⟨process_access_pressed cfg s, ?_, ?_⟩
  · simp [end_button_timer, set_state, send_led_command,
      publish_system_state, state_msg]
  · intro hb
    rw [process_door_contact]
    simp [hb]

/-- C10: `send_telegram_message` ignores its `text` argument and always
hands `telegram_send_message` the one hard-coded alarm sentence; with the
Telegram token or chat id unconfigured it sends nothing and only logs a
warning. -/
theorem C10_telegram_fixed_text (cfg : Config) (text1 text2 : String) :
    send_telegram_message cfg text1 = send_telegram_message cfg text2 ∧
    ((cfg.TELEGRAM_TOKEN = "" ∨ cfg.TELEGRAM_CHATID = "") →
      send_telegram_message cfg text1 = [Effect.log]) ∧
    (cfg.TELEGRAM_TOKEN ≠ "" → cfg.TELEGRAM_CHATID ≠ "" →
      send_telegram_message cfg text1 =
        [Effect.telegram (telegram_send_message cfg.TELEGRAM_CHATID
            cfg.TELEGRAM_TOKEN
            "ALARM: the door has been opened with the alarm connected!!!"),
         Effect.log]) := by
  by_cases h1 : cfg.TELEGRAM_TOKEN = "" <;>
    by_cases h2 : cfg.TELEGRAM_CHATID = "" <;>
      simp [send_telegram_message, h1, h2]

/-- C2 counterexample: a state with a non-null (still pending) button
timer while the current state is `disarmed`, not `button_pending`, is
reachable: press the button in `disarmed`, then present a valid
credential — the NFC fallback branch disarms without cancelling the
button timer. -/
theorem C2_counterexample :
    Reach demoCfg
      { system_state := SystemState.disarmed, trigger_timer := none,
        button_timer := some TimerStatus.pending, alarm_timer := none } ∧
    Sys.button_timer
      { system_state := SystemState.disarmed, trigger_timer := none,
        button_timer := some TimerStatus.pending, alarm_timer := none } ≠
      none ∧
    Sys.system_state
      { system_state := SystemState.disarmed, trigger_timer := none,
        button_timer := some TimerStatus.pending, alarm_timer := none } ≠
      SystemState.button_pending := by
  refine ⟨?_, by decide, by decide⟩
  have h1 : Reach demoCfg
      { system_state := SystemState.button_pending, trigger_timer := none,
        button_timer := some TimerStatus.pending, alarm_timer := none } :=
    Reach.msg "access/button" (some (buttonMsg "state_l2")) Reach.init
      (by decide)
  refine Reach.msg "access/uid" (some (nfcMsg "04a5b2c3")) h1 ?_
  simp [stepMsg, on_message, process_access_nfc, demoCfg, Bind.bind,
    Except.bind, Pure.pure, Except.pure]

/-- C2 amended: a valid credential read leaving `trigger_pending` nulls
the trigger timer, and leaving `alarm` nulls the alarm timer, before the
state changes to `disarmed`; but the same read leaving `button_pending`
keeps the button-timer handle untouched (still pending), and the three
timer callbacks never null their own fired handles, so a handle can be
non-null outside its corresponding state. -/
theorem C2_amended_cancellation (cfg : Config) (uid : String) (s : Sys)
    (ha : cfg.ALLOWED_USERS.any (fun u => u.toLower == uid.toLower) = true) :
    ∃ s1 effs,
      process_access_message cfg (nfcMsg uid) s = Except.ok (s1, effs) ∧
      (s.system_state = SystemState.trigger_pending →
        s1.trigger_timer = none ∧
        s1.system_state = SystemState.disarmed) ∧
      (s.system_state = SystemState.alarm →
        s1.alarm_timer = none ∧ s1.system_state = SystemState.disarmed) ∧
      (s.system_state = SystemState.button_pending →
        s1.button_timer = s.button_timer ∧
        s1.system_state = SystemState.disarmed) ∧
      (end_button_timer s).1.button_timer = s.button_timer ∧
      (reset_alarm s).1.alarm_timer = s.alarm_timer ∧
      (trigger_alarm cfg s).1.trigger_timer = s.trigger_timer := by
  have hcb : (end_button_timer s).1.button_timer = s.button_timer ∧
      (reset_alarm s).1.alarm_timer = s.alarm_timer ∧
      (trigger_alarm cfg s).1.trigger_timer = s.trigger_timer := by
    refine ⟨rfl, rfl, ?_⟩
    by_cases h : s.system_state = SystemState.trigger_pending <;>
      simp [trigger_alarm, set_state, h]
  rw [show process_access_message cfg (nfcMsg uid) s = _ from
    process_access_nfc cfg uid s, ha]
  cases hst : s.system_state <;>
    simp [hst, hcb.1, hcb.2.1, hcb.2.2]

/-- Witness for the amended C2 at the counterexample's configuration. -/
theorem C2_amended_cancellation_witness :
    ∃ s1 effs,
      process_access_message demoCfg (nfcMsg "04a5b2c3")
        { system_state := SystemState.button_pending, trigger_timer := none,
          button_timer := some TimerStatus.pending, alarm_timer := none } =
        Except.ok (s1, effs) ∧
      (SystemState.button_pending = SystemState.trigger_pending →
        s1.trigger_timer = none ∧
        s1.system_state = SystemState.disarmed) ∧
      (SystemState.button_pending = SystemState.alarm →
        s1.alarm_timer = none ∧ s1.system_state = SystemState.disarmed) ∧
      (SystemState.button_pending = SystemState.button_pending →
        s1.button_timer = some TimerStatus.pending ∧
        s1.system_state = SystemState.disarmed) ∧
      (end_button_timer
        { system_state := SystemState.button_pending, trigger_timer := none,
          button_timer := some TimerStatus.pending,
          alarm_timer := none }).1.button_timer = some TimerStatus.pending ∧
      (reset_alarm
        { system_state := SystemState.button_pending, trigger_timer := none,
          button_timer := some TimerStatus.pending,
          alarm_timer := none }).1.alarm_timer = none ∧
      (trigger_alarm demoCfg
        { system_state := SystemState.button_pending, trigger_timer := none,
          button_timer := some TimerStatus.pending,
          alarm_timer := none }).1.trigger_timer = none :=
  C2_amended_cancellation demoCfg "04a5b2c3"
    { system_state := SystemState.button_pending, trigger_timer := none,
      button_timer := some TimerStatus.pending, alarm_timer := none }
    (by simp [demoCfg])

/-- C7: the dispatch line `elif topic == ACCESS_TOPIC or ACCESS_BUTTON:`
tests the truthiness of the configured button-topic name instead of
comparing it with the topic, so whenever `ACCESS_BUTTON` is non-empty a
message on a completely unrecognized topic is routed to access handling
rather than logged and dropped: here a button payload arriving on the
unrelated topic "weather/outside" presses the button and moves the
disarmed system to `button_pending`. -/
theorem C7_truthy_routing_bug :
    on_message demoCfg "weather/outside" (some (buttonMsg "state_l2"))
      initSys =
      Except.ok ({ system_state := SystemState.button_pending,
                   trigger_timer := none,
                   button_timer := some TimerStatus.pending,
                   alarm_timer := none },
        [Effect.log, Effect.log, Effect.log,
         Effect.led "off" "blink" "1,1,1,1", Effect.log]) := rfl

/-- C9 counterexample: a malformed door payload that decodes to the JSON
number 42 (valid JSON, not an object) makes `process_door_message`
evaluate `"contact" in 42`, which raises an uncaught `TypeError` out of
`on_message`. -/
theorem C9_counterexample :
    on_message demoCfg "zigbee2mqtt/door" (some (Json.num 42)) initSys =
      Except.error PyError.typeError := rfl

/-- C9 amended: an undecodable payload is caught, logged once and
dropped, and a decoded JSON *object* missing the expected field is
dropped with a single log entry and no state change, on the door topic
and in access handling alike; but a decoded payload that is not a JSON
object can raise an uncaught `TypeError` (see the counterexample). -/
theorem C9_amended_malformed (cfg : Config) (topic : String)
    (kvs : List (String × Json)) (s : Sys) :
    (on_message cfg topic none s = Except.ok (s, [Effect.log])) ∧
    (topic = cfg.DOOR_TOPIC →
      kvs.any (fun kv => kv.1 == "contact") = false →
      on_message cfg topic (some (Json.obj kvs)) s =
        Except.ok (s, [Effect.log])) ∧
    (topic ≠ cfg.DOOR_TOPIC →
      (topic = cfg.ACCESS_TOPIC ∨ cfg.ACCESS_BUTTON ≠ "") →
      kvs.any (fun kv => kv.1 == cfg.ACCESS_BUTTON_PAYLOAD) = false →
      kvs.any (fun kv => kv.1 == "PN532") = false →
      on_message cfg topic (some (Json.obj kvs)) s =
        Except.ok (s, [Effect.log])) := by
  refine ⟨rfl, ?_, ?_⟩
  · intro htop hc
    simp [on_message, htop, process_door_message, pyContains, hc,
      Bind.bind, Except.bind, Pure.pure, Except.pure]
  · intro hne hacc hbtn hpn
    simp [on_message, hne, hacc, process_access_message, pyContains,
      hbtn, hpn, Bind.bind, Except.bind, Pure.pure, Except.pure]
